import Mathlib

/-!
Verification of the maintenance decision engine of
`lib/ansible/modules/database/postgresql/postgresql_vacuum.py`.

The module's `Vacuum` class fetches a statistics snapshot
(`get_user_tables_stat`), validates explicitly requested tables
(`__check_table`), applies a skip-period filter per row, composes a
`VACUUM` / `VACUUM_FULL` / `ANALYZE` statement, and either records it
(check mode) or executes it.  The definitions below are a shallow
embedding of that code; timestamps are modelled as whole seconds since
the Unix epoch (`Int`), SQL `NULL` as `none`.
-/

namespace PgVacuum

/-- One row of the statistics snapshot.  The query in
`get_user_tables_stat` selects, in this order:
column 0 `schemaname`, 1 `relname`, 2 `last_vacuum`, 3 `last_autovacuum`,
4 `last_analyze`, 5 `last_autoanalyze` (each timestamp may be NULL). -/
structure Row where
  schemaname : String
  relname : String
  last_vacuum : Option Int
  last_autovacuum : Option Int
  last_analyze : Option Int
  last_autoanalyze : Option Int
  deriving Repr, DecidableEq

/-- Positional access `row[i]` as the Python code performs it on a
snapshot row.  `some` carries the column value (itself optional, since a
timestamp may be NULL); `none` models an out-of-range index, which in
Python raises `IndexError`.  Columns 0 and 1 are the name strings and are
never read through this accessor by the code under study. -/
def Row.idx (r : Row) (i : Nat) : Option (Option Int) :=
  if i = 2 then some r.last_vacuum
  else if i = 3 then some r.last_autovacuum
  else if i = 4 then some r.last_analyze
  else if i = 5 then some r.last_autoanalyze
  else none

/-- The module parameters `Vacuum.do` reads from `module.params` plus the
runner's check-mode flag.  `analyze_only` and `full` are read with
`params.get(...)`, i.e. by truthiness; `skip_period` and
`additional_args` keep their optional nature. -/
structure Params where
  analyze_only : Bool
  full : Bool
  skip_period : Option Int
  additional_args : Option String
  check_mode : Bool
  deriving Repr, DecidableEq

/-- Python truthiness of `params.get('skip_period')`: set and non-zero. -/
def skipPeriodTruthy (p : Params) : Bool :=
  match p.skip_period with
  | some v => v != 0
  | none => false

/-- Python truthiness of `params.get('additional_args')`: set and non-empty. -/
def argsTruthy (p : Params) : Bool :=
  match p.additional_args with
  | some s => s != ""
  | none => false

/-- Python truthiness of `tbl_list`: present and non-empty. -/
def tblTruthy (tbl : Option (List String)) : Bool :=
  match tbl with
  | some l => !l.isEmpty
  | none => false

/-- The qualified-name format string the loop uses twice:
`'"%s"."%s"' % (schema, table)`. -/
def qualName (schema table : String) : String :=
  "\"" ++ schema ++ "\".\"" ++ table ++ "\""

/-- Helper for `splitDot`: accumulates the current component. -/
def splitDotAux : List Char → List Char → List (List Char)
  | [], acc => [acc.reverse]
  | c :: cs, acc =>
    if c = '.' then acc.reverse :: splitDotAux cs []
    else splitDotAux cs (c :: acc)

/-- Python `tblname.split('.')` as used by `__check_table`. -/
def splitDot (s : String) : List String :=
  (splitDotAux s.toList []).map String.mk

/-- Python `str.strip('"')`: remove double quotes from both ends. -/
def stripQuotes (s : String) : String :=
  String.mk (((s.toList.dropWhile (· == '"')).reverse.dropWhile (· == '"')).reverse)

/-- The ways `Vacuum.do` can abort: `module.fail_json` from
`__check_table` (carrying the table name and schema of the message
`table %s in schema %s does not exist`), or a Python `IndexError` from an
out-of-range row index. -/
inductive VacuumError where
  | tableNotFound (table_name schema : String)
  | indexError
  deriving Repr, DecidableEq

/-- `Vacuum.__check_table`: split the qualified name on dots, unquote the
last two components (`tmp[-2]`, `tmp[-1]`), and consult the catalog
(`information_schema.tables`, abstracted as a predicate).  A name with
fewer than two components would make `tmp[-2]` raise `IndexError`. -/
def checkTable (catalog : String → String → Bool) (tblname : String) :
    Except VacuumError Unit :=
  match (splitDot tblname).reverse with
  | last :: prev :: _ =>
    if catalog (stripQuotes prev) (stripQuotes last) then .ok ()
    else .error (.tableNotFound (stripQuotes last) (stripQuotes prev))
  | _ => .error .indexError

/-- Whether `checkTable` aborts for a given name. -/
def checkFails (catalog : String → String → Bool) (t : String) : Bool :=
  match checkTable catalog t with
  | .ok _ => false
  | .error _ => true

/-- The validation loop at the top of `Vacuum.do`:
`for tbl in tbl_list: self.__check_table(tbl)`; the first failure aborts
the whole run (`fail_json`). -/
def checkTables (catalog : String → String → Bool) :
    List String → Except VacuumError Unit
  | [] => .ok ()
  | t :: rest =>
    match checkTable catalog t with
    | .error e => .error e
    | .ok _ => checkTables catalog rest

/-- The mode keyword chosen first into `opt_list`:
`ANALYZE` if `analyze_only`, else `VACUUM_FULL` if `full`, else `VACUUM`. -/
def modeKeyword (p : Params) : String :=
  if p.analyze_only then "ANALYZE"
  else if p.full then "VACUUM_FULL"
  else "VACUUM"

/-- Outcome of the loop body of `Vacuum.do` for one snapshot row:
`err` models a raised `IndexError`, `skip` a `continue`, and
`keep b` falling through to the append step, with `b` recording whether
`self.changed = True` was executed (which the code guards by
`check_mode`). -/
inductive RowAction where
  | err
  | skip
  | keep (setChanged : Bool)
  deriving Repr, DecidableEq

/-- The loop body of `Vacuum.do` (source lines 252-291), transcribed
branch for branch: the explicit-target membership test, then — when not
`full` and `skip_period` is truthy — the recency test with
`skip_tstamp = now - skip_period`, reading `row[5]`/`row[6]` in
analyze-only mode and `row[3]`/`row[4]` otherwise, a NULL (falsy) value
leaving the local timestamp at `0`. -/
def rowAction (p : Params) (now : Int) (tbl : Option (List String)) (r : Row) :
    RowAction :=
  if tblTruthy tbl && !((tbl.getD []).contains (qualName r.schemaname r.relname)) then
    .skip
  else if !p.full && skipPeriodTruthy p then
    if p.analyze_only then
      match r.idx 5, r.idx 6 with
      | some o5, some o6 =>
        if now - p.skip_period.getD 0 > o5.getD 0
            ∨ now - p.skip_period.getD 0 > o6.getD 0 then .skip
        else .keep p.check_mode
      | _, _ => .err
    else
      match r.idx 3, r.idx 4 with
      | some o3, some o4 =>
        if now - p.skip_period.getD 0 > o3.getD 0
            ∨ now - p.skip_period.getD 0 > o4.getD 0 then .skip
        else .keep p.check_mode
      | _, _ => .err
  else .keep false

/-- Whether the loop body retains the row (falls through to the append
step) rather than `continue`-ing past it or raising. -/
def rowKept (p : Params) (now : Int) (tbl : Option (List String)) (r : Row) : Bool :=
  match rowAction p now tbl r with
  | .keep _ => true
  | _ => false

/-- The `for row in self.stat_user_tables` loop: threads `tmp_tbl_list`
and `self.changed`, appending the qualified name when an explicit target
list is truthy, and propagating a raised `IndexError`. -/
def processRows (p : Params) (now : Int) (tbl : Option (List String)) :
    List Row → List String → Bool → Except VacuumError (List String × Bool)
  | [], tmp, ch => .ok (tmp, ch)
  | r :: rest, tmp, ch =>
    match rowAction p now tbl r with
    | .err => .error .indexError
    | .skip => processRows p now tbl rest tmp ch
    | .keep setCh =>
      processRows p now tbl rest
        (if tblTruthy tbl then tmp ++ [qualName r.schemaname r.relname] else tmp)
        (if setCh then true else ch)

/-- Statement assembly at the end of `Vacuum.do`: `opt_list` is the mode
keyword, then `additional_args` if truthy, then the comma-joined
`tmp_tbl_list` if non-empty; the query is `' '.join(opt_list)`. -/
def buildQuery (p : Params) (tmp : List String) : String :=
  String.intercalate " "
    ([modeKeyword p]
      ++ (if argsTruthy p then [p.additional_args.getD ""] else [])
      ++ (if tmp.isEmpty then [] else [String.intercalate ", " tmp]))

/-- Observable outcome of one `Vacuum.do` call: the `changed` flag, the
`executed_queries` list returned to the caller, the statements actually
sent to the store, the composed statement, and the retained explicit
targets (`tmp_tbl_list`). -/
structure DoResult where
  changed : Bool
  executed_queries : List String
  executed : List String
  query : String
  selected : List String
  deriving Repr, DecidableEq

/-- `Vacuum.do` (source lines 230-309): validate explicit targets, run
the row loop, compose the query; in check mode set `changed` when
`skip_period` is falsy and only record the query; otherwise execute it
(`exec_sql(..., ddl=True)` also records the query; `execOk` abstracts its
success, which sets `changed`). -/
def vacuumDo (p : Params) (catalog : String → String → Bool) (now : Int)
    (stat_user_tables : List Row) (tbl_list : Option (List String))
    (execOk : Bool) : Except VacuumError DoResult :=
  match (if tblTruthy tbl_list then checkTables catalog (tbl_list.getD []) else .ok ()) with
  | .error e => .error e
  | .ok _ =>
    match processRows p now tbl_list stat_user_tables [] false with
    | .error e => .error e
    | .ok (tmp, ch) =>
      if p.check_mode then
        .ok { changed := if !skipPeriodTruthy p then true else ch
            , executed_queries := [buildQuery p tmp]
            , executed := []
            , query := buildQuery p tmp
            , selected := tmp }
      else
        .ok { changed := if execOk then true else ch
            , executed_queries := [buildQuery p tmp]
            , executed := [buildQuery p tmp]
            , query := buildQuery p tmp
            , selected := tmp }

/-- A snapshot row is a candidate when no truthy explicit target list
excludes it (negation of the membership `continue`). -/
def rowIsCandidate (tbl : Option (List String)) (r : Row) : Bool :=
  !(tblTruthy tbl && !((tbl.getD []).contains (qualName r.schemaname r.relname)))

/-- The retained explicit-target list when every candidate is kept:
all candidate rows in snapshot order, qualified (empty when no truthy
explicit list is given, since only then does the code append). -/
def candidateSelected (tbl : Option (List String)) (rows : List Row) : List String :=
  if tblTruthy tbl then
    (rows.filter (rowIsCandidate tbl)).map (fun r => qualName r.schemaname r.relname)
  else []

/-- The Statement Composer as the specification words it: an ordered
token list — mode keyword, then the extra modifiers verbatim if present,
then the comma-joined selected target list if non-empty — joined with
single spaces. -/
def composeStatement (modeKw : String) (extra : Option String)
    (targets : List String) : String :=
  String.intercalate " "
    ([modeKw]
      ++ (match extra with
          | some s => if s = "" then [] else [s]
          | none => [])
      ++ (if targets.isEmpty then [] else [String.intercalate ", " targets]))

/-- The row with all four timestamps NULL (a relation never vacuumed or
analyzed), used as concrete input below. -/
def rowT1Null : Row :=
  { schemaname := "public", relname := "t1"
  , last_vacuum := none, last_autovacuum := none
  , last_analyze := none, last_autoanalyze := none }

/-- The option names `main` adds to the argument spec
(source lines 318-325). -/
def mainArgumentSpecKeys : List String :=
  ["tables", "skip_period", "analyze_only", "additional_args", "db", "session_role"]

/-- The mutually exclusive option pairs `main` declares
(source lines 329-332). -/
def mainMutuallyExclusive : List (List String) :=
  [["full", "analyze_only"], ["full", "skip_period"]]

/-- The option names the module DOCUMENTATION block declares. -/
def documentedOptions : List String :=
  ["tables", "skip_period", "analyze_only", "full", "additional_args", "db", "session_role"]

/-- C1: at a concrete input in VACUUM mode — `skip_period = 100`,
`now = 1000` (threshold 900), explicit target `public.t1` whose four
timestamps are all NULL, hence strictly older than the threshold — the
claim selects the relation, but the code's `continue` fires on exactly
the claimed process condition and drops it: the retained target list is
empty and the composed statement is the bare `VACUUM`. -/
theorem stale_relation_dropped :
    vacuumDo { analyze_only := false, full := false, skip_period := some 100
             , additional_args := none, check_mode := true }
      (fun _ _ => true) 1000 [rowT1Null] (some [qualName "public" "t1"]) true
      = .ok { changed := false, executed_queries := ["VACUUM"], executed := []
            , query := "VACUUM", selected := [] } := by
  rfl

/-- C2: in ANALYZE-only mode with a positive `skip_period` and a relation
whose analyze timestamps are both NULL, the claim says the relation is
never skipped; the code instead reads `row[6]` — the statistics query
returns only columns 0..5 — and the whole run aborts with `IndexError`
before any decision is taken. -/
theorem analyze_skip_period_index_error :
    vacuumDo { analyze_only := true, full := false, skip_period := some 60
             , additional_args := none, check_mode := true }
      (fun _ _ => true) 1000 [rowT1Null] none true
      = .error .indexError := by
  rfl

/-- C3: with an explicit target list whose only relation the skip-period
filter drops, and check mode off, the claim requires `would_change =
false` and no statement operating on all relations; the code instead
composes the bare `VACUUM`, executes it against the whole database, and
reports `changed = true`. -/
theorem all_targets_skipped_runs_bare_vacuum :
    vacuumDo { analyze_only := false, full := false, skip_period := some 3600
             , additional_args := none, check_mode := false }
      (fun _ _ => true) 10000 [rowT1Null] (some [qualName "public" "t1"]) true
      = .ok { changed := true, executed_queries := ["VACUUM"], executed := ["VACUUM"]
            , query := "VACUUM", selected := [] } := by
  rfl

/-- C7: the argument spec that `main` builds omits the `full` option
entirely, although the module DOCUMENTATION declares it and both declared
mutual-exclusion pairs reference it — so the runner rejects any use of
`full` as an unsupported parameter and the declared mutual-exclusion
pairs can never fire as such. -/
theorem full_option_missing_from_argument_spec :
    mainArgumentSpecKeys.contains "full" = false
      ∧ documentedOptions.contains "full" = true
      ∧ mainMutuallyExclusive.all (fun pair => pair.contains "full") = true := by
  decide

/-- `buildQuery` coincides with the specification's Statement Composer:
the truthiness test on `additional_args` matches "verbatim if present"
(with the empty string counting as absent). -/
theorem buildQuery_eq_compose (p : Params) (tmp : List String) :
    buildQuery p tmp = composeStatement (modeKeyword p) p.additional_args tmp := by
  unfold buildQuery composeStatement argsTruthy
  cases h : p.additional_args with
  | none => rfl
  | some s =>
    by_cases hs : s = ""
    · subst hs; rfl
    · simp [hs]

/-- C8: in check mode with `skip_period` unset, every completed run
reports `changed = true`, records exactly the composed statement in
`executed_queries`, and executes nothing. -/
theorem check_mode_without_skip_period_changed (p : Params)
    (catalog : String → String → Bool) (now : Int) (rows : List Row)
    (tbl : Option (List String)) (execOk : Bool) (st : DoResult)
    (hC : p.check_mode = true) (hS : p.skip_period = none)
    (h : vacuumDo p catalog now rows tbl execOk = .ok st) :
    st.changed = true ∧ st.executed_queries = [st.query] ∧ st.executed = [] := by
  unfold vacuumDo at h
  split at h
  · simp at h
  · split at h
    · simp at h
    · rw [hC] at h
      simp only [if_true] at h
      injection h with h
      subst h
      refine ⟨?_, rfl, rfl⟩
      simp [skipPeriodTruthy, hS]

/-- Concrete check-mode parameters with no skip period. -/
def pCheckNoSkip : Params :=
  { analyze_only := false, full := false, skip_period := none
  , additional_args := none, check_mode := true }

/-- C8 witness: a concrete check-mode run with no skip period. -/
theorem check_mode_without_skip_period_changed_witness :
    pCheckNoSkip.check_mode = true
      ∧ pCheckNoSkip.skip_period = none
      ∧ vacuumDo pCheckNoSkip (fun _ _ => true) 0 [rowT1Null] none false
          = .ok { changed := true, executed_queries := ["VACUUM"], executed := []
                , query := "VACUUM", selected := [] }
      ∧ ({ changed := true, executed_queries := ["VACUUM"], executed := []
         , query := "VACUUM", selected := [] } : DoResult).changed = true := by
  refine ⟨rfl, rfl, rfl, ?_⟩
  exact (check_mode_without_skip_period_changed pCheckNoSkip
    (fun _ _ => true) 0 [rowT1Null] none false
    { changed := true, executed_queries := ["VACUUM"], executed := []
    , query := "VACUUM", selected := [] } rfl rfl rfl).1

/-- C10: every statement a completed run composes equals the
specification's Statement Composer applied to the mode keyword, the
extra modifiers, and the retained target list; composition is a pure
function of those three inputs, so identical inputs give byte-identical
strings. -/
theorem composed_query_matches_spec_composer (p : Params)
    (catalog : String → String → Bool) (now : Int) (rows : List Row)
    (tbl : Option (List String)) (execOk : Bool) (st : DoResult)
    (h : vacuumDo p catalog now rows tbl execOk = .ok st) :
    st.query = composeStatement (modeKeyword p) p.additional_args st.selected := by
  unfold vacuumDo at h
  split at h
  · simp at h
  · split at h
    · simp at h
    · split at h
      · injection h with h
        subst h
        exact buildQuery_eq_compose p _
      · injection h with h
        subst h
        exact buildQuery_eq_compose p _

/-- C10 witness: the full-with-modifier scenario composes
`VACUUM_FULL analyze "public"."mytable"` and matches the composer. -/
theorem composed_query_matches_spec_composer_witness :
    vacuumDo { analyze_only := false, full := true, skip_period := none
             , additional_args := some "analyze", check_mode := true }
      (fun _ _ => true) 0
      [{ schemaname := "public", relname := "mytable", last_vacuum := none
       , last_autovacuum := none, last_analyze := none, last_autoanalyze := none }]
      (some [qualName "public" "mytable"]) true
      = .ok { changed := true
            , executed_queries := ["VACUUM_FULL analyze \"public\".\"mytable\""]
            , executed := []
            , query := "VACUUM_FULL analyze \"public\".\"mytable\""
            , selected := [qualName "public" "mytable"] }
    ∧ ("VACUUM_FULL analyze \"public\".\"mytable\""
        = composeStatement "VACUUM_FULL" (some "analyze") [qualName "public" "mytable"]) := by
  refine ⟨rfl, ?_⟩
  exact composed_query_matches_spec_composer
    { analyze_only := false, full := true, skip_period := none
    , additional_args := some "analyze", check_mode := true }
    (fun _ _ => true) 0
    [{ schemaname := "public", relname := "mytable", last_vacuum := none
     , last_autovacuum := none, last_analyze := none, last_autoanalyze := none }]
    (some [qualName "public" "mytable"]) true _ rfl

/-- The loop body can only request `changed := True` when check mode is
on: every `keep` it produces carries either `false` or `p.check_mode`. -/
theorem rowAction_keep_check (p : Params) (now : Int)
    (tbl : Option (List String)) (r : Row) (hC : p.check_mode = false) :
    rowAction p now tbl r ≠ .keep true := by
  unfold rowAction
  repeat' split
  all_goals simp [hC]

/-- Without a truthy explicit target list the loop never appends, and
outside check mode it never touches `changed`. -/
theorem processRows_untruthy_aux (p : Params) (now : Int)
    (tbl : Option (List String)) (hT : tblTruthy tbl = false) :
    ∀ (rows : List Row) (tmp : List String) (ch : Bool) (out : List String × Bool),
      processRows p now tbl rows tmp ch = .ok out →
        out.1 = tmp ∧ (p.check_mode = false → out.2 = ch) := by
  intro rows
  induction rows with
  | nil =>
    intro tmp ch out h
    simp only [processRows] at h
    injection h with h
    subst h
    exact ⟨rfl, fun _ => rfl⟩
  | cons r rest ih =>
    intro tmp ch out h
    simp only [processRows] at h
    cases hA : rowAction p now tbl r with
    | err => rw [hA] at h; simp at h
    | skip => rw [hA] at h; exact ih tmp ch out h
    | keep b =>
      rw [hA] at h
      rw [hT] at h
      simp only [Bool.false_eq_true, if_false] at h
      obtain ⟨h1, h2⟩ := ih tmp _ out h
      refine ⟨h1, fun hC => ?_⟩
      have hb : b ≠ true := fun hbt => rowAction_keep_check p now tbl r hC (hbt ▸ hA)
      cases b with
      | true => exact absurd rfl hb
      | false => simpa using h2 hC

/-- C4: when no explicit tables list is supplied, a completed run retains
no targets, its statement is exactly the mode keyword followed by the
optional additional arguments (no target clause), and outside check mode
`changed` reflects only execution success, not the skip-period filter. -/
theorem no_tables_statement_unqualified (p : Params)
    (catalog : String → String → Bool) (now : Int) (rows : List Row)
    (execOk : Bool) (st : DoResult)
    (h : vacuumDo p catalog now rows none execOk = .ok st) :
    st.selected = []
      ∧ st.query = String.intercalate " "
          ([modeKeyword p] ++ (if argsTruthy p then [p.additional_args.getD ""] else []))
      ∧ (p.check_mode = false → st.changed = execOk) := by
  unfold vacuumDo at h
  simp only [tblTruthy, Bool.false_eq_true, if_false] at h
  split at h
  · simp at h
  · rename_i tmp ch heq
    obtain ⟨h1, h2⟩ := processRows_untruthy_aux p now none rfl rows [] false (tmp, ch) heq
    simp only at h1 h2
    subst h1
    split at h
    · rename_i hCm
      injection h with h
      subst h
      refine ⟨rfl, by simp [buildQuery], fun hC => ?_⟩
      rw [hCm] at hC
      cases hC
    · rename_i hCm
      injection h with h
      subst h
      refine ⟨rfl, by simp [buildQuery], fun hC => ?_⟩
      rw [h2 hC]
      cases execOk <;> rfl

/-- C4 witness: a concrete non-check run with additional arguments and a
skip period; the snapshot row is filtered yet the statement is the full
`VACUUM analyze` with no target clause and `changed` mirrors execution. -/
theorem no_tables_statement_unqualified_witness :
    vacuumDo { analyze_only := false, full := false, skip_period := some 100
             , additional_args := some "analyze", check_mode := false }
      (fun _ _ => true) 1000 [rowT1Null] none true
      = .ok { changed := true, executed_queries := ["VACUUM analyze"]
            , executed := ["VACUUM analyze"], query := "VACUUM analyze"
            , selected := [] }
    ∧ ([] : List String) = []
    ∧ "VACUUM analyze" = String.intercalate " " (["VACUUM"] ++ ["analyze"]) := by
  refine ⟨rfl, ?_, ?_⟩
  · exact (no_tables_statement_unqualified
      { analyze_only := false, full := false, skip_period := some 100
      , additional_args := some "analyze", check_mode := false }
      (fun _ _ => true) 1000 [rowT1Null] true
      { changed := true, executed_queries := ["VACUUM analyze"]
      , executed := ["VACUUM analyze"], query := "VACUUM analyze"
      , selected := [] } rfl).1
  · rfl

/-- The validation loop stops at the first failing table and returns its
error. -/
theorem checkTables_find (catalog : String → String → Bool) :
    ∀ (l : List String) (t : String), l.find? (checkFails catalog) = some t →
      checkTables catalog l = checkTable catalog t := by
  intro l
  induction l with
  | nil => intro t h; simp [List.find?] at h
  | cons a rest ih =>
    intro t h
    by_cases hA : checkFails catalog a = true
    · rw [List.find?_cons_of_pos _ hA] at h
      injection h with h
      subst h
      unfold checkTables
      cases hE : checkTable catalog a with
      | error e => simp [hE]
      | ok u => simp [checkFails, hE] at hA
    · rw [List.find?_cons_of_neg _ (by simpa using hA)] at h
      unfold checkTables
      cases hE : checkTable catalog a with
      | error e => exact absurd (by simp [checkFails, hE]) hA
      | ok u => simpa [hE] using ih t h

/-- C5: if the first explicitly named table that fails validation does
not exist in the catalog, the whole run aborts with the error naming that
table and its schema — no result (statement, query list, execution) is
produced at all. -/
theorem missing_table_aborts_run (p : Params)
    (catalog : String → String → Bool) (now : Int) (rows : List Row)
    (l : List String) (execOk : Bool) (t n s : String)
    (hT : tblTruthy (some l) = true)
    (hFind : l.find? (checkFails catalog) = some t)
    (hErr : checkTable catalog t = .error (.tableNotFound n s)) :
    vacuumDo p catalog now rows (some l) execOk
      = .error (.tableNotFound n s) := by
  unfold vacuumDo
  rw [hT]
  simp only [if_true, Option.getD_some]
  rw [checkTables_find catalog l t hFind, hErr]

/-- C5 witness: Scenario C — explicit target `"public"."orders"` with a
catalog that has no such table aborts with the identifying error. -/
theorem missing_table_aborts_run_witness :
    tblTruthy (some ["\"public\".\"orders\""]) = true
      ∧ ["\"public\".\"orders\""].find? (checkFails (fun _ _ => false))
          = some "\"public\".\"orders\""
      ∧ checkTable (fun _ _ => false) "\"public\".\"orders\""
          = .error (.tableNotFound "orders" "public")
      ∧ vacuumDo { analyze_only := false, full := false, skip_period := none
                 , additional_args := none, check_mode := false }
          (fun _ _ => false) 0 [rowT1Null] (some ["\"public\".\"orders\""]) true
          = .error (.tableNotFound "orders" "public") := by
  refine ⟨rfl, rfl, rfl, ?_⟩
  exact missing_table_aborts_run
    { analyze_only := false, full := false, skip_period := none
    , additional_args := none, check_mode := false }
    (fun _ _ => false) 0 [rowT1Null] ["\"public\".\"orders\""] true
    "\"public\".\"orders\"" "orders" "public" rfl rfl rfl

/-- With `full` truthy the loop keeps every candidate row unchanged:
no error, no skip, no `changed` update. -/
theorem processRows_full_aux (p : Params) (now : Int)
    (tbl : Option (List String)) (hF : p.full = true) :
    ∀ (rows : List Row) (tmp : List String) (ch : Bool),
      processRows p now tbl rows tmp ch
        = .ok (tmp ++ candidateSelected tbl rows, ch) := by
  intro rows
  induction rows with
  | nil => intro tmp ch; simp [processRows, candidateSelected]
  | cons r rest ih =>
    intro tmp ch
    by_cases hc : (tblTruthy tbl
        && !((tbl.getD []).contains (qualName r.schemaname r.relname))) = true
    · have hA : rowAction p now tbl r = .skip := by
        unfold rowAction
        rw [if_pos hc]
      simp only [processRows, hA, ih]
      have hcand : rowIsCandidate tbl r = false := by
        simp only [rowIsCandidate, hc, Bool.not_true]
      simp [candidateSelected, hcand]
    · have hA : rowAction p now tbl r = .keep false := by
        unfold rowAction
        rw [if_neg hc, if_neg (by simp [hF])]
      simp only [processRows, hA, ih]
      have hX : (tblTruthy tbl
          && !((tbl.getD []).contains (qualName r.schemaname r.relname))) = false := by
        simpa using hc
      have hcand : rowIsCandidate tbl r = true := by
        unfold rowIsCandidate
        rw [hX]
        rfl
      cases hTr : tblTruthy tbl with
      | true => simp [candidateSelected, hTr, hcand, List.filter_cons]
      | false => simp [candidateSelected, hTr]

/-- C6: in VACUUM_FULL mode the skip-period filter is a no-op — the row
loop completes without error, keeps every candidate relation (in
snapshot order) and leaves `changed` untouched, whatever `skip_period`
and the snapshot timestamps are. -/
theorem full_mode_filter_noop (p : Params) (now : Int)
    (tbl : Option (List String)) (rows : List Row)
    (_hA : p.analyze_only = false) (hF : p.full = true) :
    processRows p now tbl rows [] false
      = .ok (candidateSelected tbl rows, false) := by
  simpa using processRows_full_aux p now tbl hF rows [] false

/-- C6 witness: full mode with a set skip period still selects the
explicitly targeted relation whose timestamps would otherwise trigger
the filter branch. -/
theorem full_mode_filter_noop_witness :
    ({ analyze_only := false, full := true, skip_period := some 3600
     , additional_args := none, check_mode := false } : Params).analyze_only = false
      ∧ ({ analyze_only := false, full := true, skip_period := some 3600
         , additional_args := none, check_mode := false } : Params).full = true
      ∧ processRows
          { analyze_only := false, full := true, skip_period := some 3600
          , additional_args := none, check_mode := false }
          10000 (some [qualName "public" "t1"]) [rowT1Null] [] false
          = .ok (candidateSelected (some [qualName "public" "t1"]) [rowT1Null], false)
      ∧ candidateSelected (some [qualName "public" "t1"]) [rowT1Null]
          = [qualName "public" "t1"] := by
  refine ⟨rfl, rfl, ?_, rfl⟩
  exact full_mode_filter_noop
    { analyze_only := false, full := true, skip_period := some 3600
    , additional_args := none, check_mode := false }
    10000 (some [qualName "public" "t1"]) [rowT1Null] rfl rfl

/-- When the filter branch is active (not full, truthy skip period),
every `keep` the loop body produces carries exactly `p.check_mode`. -/
theorem rowAction_keep_flag (p : Params) (now : Int)
    (tbl : Option (List String)) (r : Row) (b : Bool)
    (hF : p.full = false) (hS : skipPeriodTruthy p = true)
    (h : rowAction p now tbl r = .keep b) : b = p.check_mode := by
  unfold rowAction at h
  split at h
  · simp at h
  · split at h
    · split at h
      · split at h
        · split at h
          · simp at h
          · injection h with h; exact h.symm
        · simp at h
      · split at h
        · split at h
          · simp at h
          · injection h with h; exact h.symm
        · simp at h
    · rename_i hcond
      exact absurd (by simp [hF, hS]) hcond

/-- In check mode with the filter active, the loop leaves `changed` at
`ch || (some candidate row is kept)`. -/
theorem processRows_changed_any (p : Params) (now : Int)
    (tbl : Option (List String)) (hC : p.check_mode = true)
    (hF : p.full = false) (hS : skipPeriodTruthy p = true) :
    ∀ (rows : List Row) (tmp : List String) (ch : Bool)
      (out : List String × Bool),
      processRows p now tbl rows tmp ch = .ok out →
        out.2 = (ch || rows.any (rowKept p now tbl)) := by
  intro rows
  induction rows with
  | nil =>
    intro tmp ch out h
    simp only [processRows] at h
    injection h with h
    subst h
    simp
  | cons r rest ih =>
    intro tmp ch out h
    simp only [processRows] at h
    cases hA : rowAction p now tbl r with
    | err => rw [hA] at h; simp at h
    | skip =>
      rw [hA] at h
      have := ih tmp ch out h
      simp [List.any_cons, rowKept, hA, this]
    | keep b =>
      have hb : b = true := by
        rw [rowAction_keep_flag p now tbl r b hF hS hA, hC]
      subst hb
      rw [hA] at h
      simp only [if_true] at h
      have := ih _ _ out h
      simp [List.any_cons, rowKept, hA, this]

/-- C9: in check mode with a truthy skip period and mode not full, a
completed run reports `changed = true` exactly when the skip-period
filter kept at least one candidate relation; if every candidate is
skipped, `changed` stays false. -/
theorem check_mode_changed_iff_kept (p : Params)
    (catalog : String → String → Bool) (now : Int) (rows : List Row)
    (tbl : Option (List String)) (execOk : Bool) (st : DoResult)
    (hC : p.check_mode = true) (hF : p.full = false)
    (hS : skipPeriodTruthy p = true)
    (h : vacuumDo p catalog now rows tbl execOk = .ok st) :
    (st.changed = true ↔ rows.any (rowKept p now tbl) = true) := by
  unfold vacuumDo at h
  split at h
  · simp at h
  · split at h
    · simp at h
    · rename_i tmp ch heq
      have hch := processRows_changed_any p now tbl hC hF hS rows [] false (tmp, ch) heq
      simp only [Bool.false_or] at hch
      rw [hC] at h
      simp only [if_true] at h
      injection h with h
      subst h
      simp only [hS, Bool.not_true, Bool.false_eq_true, if_false]
      rw [hch]

/-- Concrete check-mode parameters with a skip period of 100 seconds. -/
def pCheckSkip : Params :=
  { analyze_only := false, full := false, skip_period := some 100
  , additional_args := none, check_mode := true }

/-- A relation whose columns 3 and 4 — the ones the code reads in VACUUM
mode — hold timestamps at or after the threshold `1000 - 100`. -/
def rowRecent : Row :=
  { schemaname := "public", relname := "t1", last_vacuum := some 50
  , last_autovacuum := some 950, last_analyze := some 990
  , last_autoanalyze := none }

/-- C9 witness: one relation kept by the filter flips `changed` in check
mode; the iff instance follows from the claim theorem. -/
theorem check_mode_changed_iff_kept_witness :
    pCheckSkip.check_mode = true
      ∧ pCheckSkip.full = false
      ∧ skipPeriodTruthy pCheckSkip = true
      ∧ vacuumDo pCheckSkip (fun _ _ => true) 1000 [rowRecent] none true
          = .ok { changed := true, executed_queries := ["VACUUM"], executed := []
                , query := "VACUUM", selected := [] }
      ∧ (true = true ↔ [rowRecent].any (rowKept pCheckSkip 1000 none) = true) := by
  refine ⟨rfl, rfl, rfl, rfl, ?_⟩
  exact check_mode_changed_iff_kept pCheckSkip (fun _ _ => true) 1000 [rowRecent]
    none true
    { changed := true, executed_queries := ["VACUUM"], executed := []
    , query := "VACUUM", selected := [] } rfl rfl rfl rfl

end PgVacuum
